import Mathlib

/-!
Shallow embedding of the RTK session bridge
(`rtk_ros/include/rtk_ros/rtk_node.hpp`) and proofs about it.

The serial transport and the protocol decoder are external collaborators;
they are modelled as oracles (lists or functions describing the outcomes of
the calls the bridge makes into them).  Every definition below mirrors a
function of `RTKNode`; line numbers refer to `rtk_node.hpp`.
-/

namespace RTKNode

/-! ### Fix-quality translation (`status_px4_to_ros`, lines 53-63)

The C++ takes and returns `int`; we use `Int` and mirror the if-chain
literally. -/

def status_px4_to_ros (status : Int) : Int :=
  if status = 0 then -1
  else if status = 1 then -1
  else if status = 2 then -1
  else if status = 3 then 0       -- FIX
  else if status = 4 then 2       -- Sat augmentation
  else if status = 5 then 2
  else if status = 6 then 2
  else if status = 8 then 1
  else -1

/-! ### Transport connector (`connect`, lines 65-99)

The serial device is an oracle: each call to `serial->open()` consumes one
`OpenOutcome`, which says whether the call throws (and which exception
class) and what `serial->isOpen()` reports afterwards.  The bridge code we
embed is exactly `RTKNode::connect`:

* line 67: `setPort`;
* line 69: an initial `serial->open()` **outside** any try/catch — an
  exception here propagates out of `connect` (recorded in `escaped`);
* lines 70-73: if the port is still closed, log a warning and return
  immediately (no retries);
* lines 74-78: configure baudrate and the 8-N-1-no-flow-control shape;
* lines 80-98: a five-iteration retry loop whose `open()` is guarded by
  `catch (serial::IOException)` (silent) and `catch (...)` (generates a
  fatal log), then `isOpen()` decides success (`connected = true`, set the
  500 time-unit timeout, return) or failure (`connected = false`, info
  log, next iteration). -/

inductive ExKind
  | ioFault      -- serial::IOException, caught silently in the loop
  | otherFault   -- any other exception, logged fatal in the loop
  deriving DecidableEq, Repr

structure OpenOutcome where
  ex : Option ExKind   -- does this open() call throw, and what
  opened : Bool        -- what isOpen() reports after the call
  deriving DecidableEq, Repr

/-- Observable events of one `connect` call, in program order. -/
inductive Ev
  | setPort
  | openCall           -- one call to serial->open()
  | warnFailedOpen     -- ROS_WARN_STREAM line 71
  | setBaudrate        -- line 74
  | setBytesize8       -- line 75
  | setParityNone      -- line 76
  | setStopbitsOne     -- line 77
  | setFlowNone        -- line 78
  | debugTrying        -- ROS_DEBUG line 82
  | fatalOther         -- ROS_FATAL line 86
  | infoBadConnection  -- ROS_INFO_STREAM line 96
  | setTimeout500      -- lines 91-92
  deriving DecidableEq, Repr

/-- One `serial->open()` call against the oracle: returns the new
`isOpen()` value, the remaining oracle, and the exception thrown if any.
An exhausted oracle behaves as a call that does nothing. -/
def serialOpen (isOpen : Bool) : List OpenOutcome →
    Bool × List OpenOutcome × Option ExKind
  | [] => (isOpen, [], none)
  | o :: rest => (o.opened, rest, o.ex)

structure LoopResult where
  connected : Bool
  events : List Ev
  deriving DecidableEq, Repr

/-- The retry loop of lines 80-98.  `fuel` is the remaining iteration
count (5 at entry); `c` is the current value of the `connected` field.
Exceptions from `open()` are caught here: `otherFault` additionally logs
`fatalOther` (line 86), `ioFault` is silent (line 84). -/
def connectLoop : Nat → Bool → Bool → List OpenOutcome → LoopResult
  | 0, c, _, _ => ⟨c, []⟩
  | fuel + 1, _, isOpen, outs =>
    let (isOpen', rest, ex) := serialOpen isOpen outs
    let pre := [Ev.debugTrying, Ev.openCall] ++
      (if ex = some ExKind.otherFault then [Ev.fatalOther] else [])
    if isOpen' then
      ⟨true, pre ++ [Ev.setTimeout500]⟩
    else
      let r := connectLoop fuel false isOpen' rest
      ⟨r.connected, pre ++ [Ev.infoBadConnection] ++ r.events⟩

structure ConnResult where
  connected : Bool
  escaped : Option ExKind  -- exception that propagated out of connect()
  events : List Ev
  deriving DecidableEq, Repr

/-- `RTKNode::connect` (lines 65-99), for a freshly constructed serial
object (`isOpen()` initially false).  `c0` is the value of the `connected`
field on entry (false after construction). -/
def connect (c0 : Bool) (outs : List OpenOutcome) : ConnResult :=
  let (isOpen1, rest, ex1) := serialOpen false outs   -- line 69
  match ex1 with
  | some e => ⟨c0, some e, [Ev.setPort, Ev.openCall]⟩  -- uncaught: escapes
  | none =>
    if !isOpen1 then                                   -- lines 70-73
      ⟨c0, none, [Ev.setPort, Ev.openCall, Ev.warnFailedOpen]⟩
    else
      let r := connectLoop 5 c0 isOpen1 rest           -- lines 80-98
      ⟨r.connected, none,
        [Ev.setPort, Ev.openCall, Ev.setBaudrate, Ev.setBytesize8,
         Ev.setParityNone, Ev.setStopbitsOne, Ev.setFlowNone] ++ r.events⟩

/-! ### Session loop (`run`, lines 101-138)

The decoder is an oracle: `recv k` is the signed result of the `k`-th
`gpsDriver->receive(100)` call, `flag k` the value of `ros::ok()` read at
the `k`-th loop-guard check.  `satPresent` models the `pReportSatInfo`
null check of line 123 (the pointer is allocated in the constructor and
never nulled while the loop runs, so it is a constant of the run). -/

/-- Publication events of one loop iteration. -/
inductive REv
  | publishPos   -- publishGPSPosition(), line 119
  | publishSat   -- publishGPSSatellite(), line 124
  deriving DecidableEq, Repr

/-- The body of the while-loop, lines 112-129: given the current value of
`numTries` and the `receive` result, returns the new `numTries` and the
publications made.  `numTries` is a C++ `int`; it only ever holds `0..3`
here so `Int` with `+ 1` is exact. -/
def step (satPresent : Bool) (numTries : Int) (ret : Int) :
    Int × List REv :=
  if 0 < ret then
    -- line 116: numTries = 0 (and again at 120 and 125; the final value
    -- is 0 on every path through this branch)
    let posEvs := if ret.toNat.testBit 0 then [REv.publishPos] else []
    let satEvs := if satPresent && ret.toNat.testBit 1
      then [REv.publishSat] else []
    (0, posEvs ++ satEvs)
  else
    (numTries + 1, [])

/-- The while-loop of lines 111-130.  `fuel` bounds how many further
guard checks we unroll (the real loop is unbounded; every claim about it
is stated for all sufficiently large `fuel`).  Returns the trace of
iterations actually run: one `(receive result, publications)` pair per
`receive` call. -/
def runLoop (satPresent : Bool) (flag : Nat → Bool) (recv : Nat → Int) :
    Nat → Nat → Int → List (Int × List REv)
  | 0, _, _ => []
  | fuel + 1, idx, numTries =>
    if flag idx && decide (numTries < 3) then
      let ret := recv idx
      let (numTries', evs) := step satPresent numTries ret
      (ret, evs) :: runLoop satPresent flag recv fuel (idx + 1) numTries'
    else []

/-- Number of `receive` calls the loop makes within `fuel` guard checks. -/
def receiveCalls (satPresent : Bool) (flag : Nat → Bool)
    (recv : Nat → Int) (fuel : Nat) : Nat :=
  (runLoop satPresent flag recv fuel 0 0).length

/-! ### Position publisher (`publishGPSPosition`, lines 140-162)

`vehicle_gps_position_s` is an external (PX4) struct; we model only the
fields this function reads, with an abstract numeric type `Int` (the
function copies values, it never computes with them).  `decodeStamp`
stands for whatever decode-time timestamp the report carries; the code
never reads it.  The ROS message is built from a default-constructed
(all-zero) `NavSatFix`; `now` is the value of `ros::Time::now()` at
publish time (line 143). -/

structure GpsReport where
  lat : Int
  lon : Int
  alt : Int
  fix_type : Int
  eph : Int
  epv : Int
  decodeStamp : Int
  deriving DecidableEq, Repr

/-- `sensor_msgs::NavSatFix` constants: `SERVICE_GPS = 1`,
`COVARIANCE_TYPE_APPROXIMATED = 1`. -/
structure NavSatFixMsg where
  stamp : Int
  frame_id : String
  latitude : Int
  longitude : Int
  altitude : Int
  status : Int
  service : Int
  position_covariance : Fin 9 → Int
  position_covariance_type : Int

/-- Lines 140-162: the message handed to `GPSPublisher.publish`. -/
def publishGPSPosition (r : GpsReport) (now : Int) : NavSatFixMsg where
  stamp := now                                   -- line 143
  frame_id := "rtk_base"                         -- line 144
  altitude := r.alt                              -- line 145
  longitude := r.lon                             -- line 146
  latitude := r.lat                              -- line 147
  status := status_px4_to_ros r.fix_type         -- line 148
  service := 1                                   -- line 149
  position_covariance := fun i =>                -- lines 150-152
    if i = (0 : Fin 9) then r.eph
    else if i = (4 : Fin 9) then r.eph
    else if i = (8 : Fin 9) then r.epv
    else 0                                       -- zero-initialized msg
  position_covariance_type := 1                  -- line 153

/-! ### Callback bridge (`callback`, lines 195-250)

Each `case` of the switch is embedded as its own function; payloads and
transport responses are explicit parameters. -/

/-! #### readDeviceData (lines 199-209)

Transport model for one invocation: `avail` is what `serial->available()`
returns; `timeToReadable` is how long until the device has data (`none` =
never); `configuredTimeoutMs` is the serial object's configured read
timeout (500 after a successful `connect`), which is what
`serial->waitReadable()` waits for; `pending` is how many bytes the
device delivers to `serial->read` (the library returns at most the
requested length, hence the `min`). -/

structure SerialReadState where
  avail : Nat
  timeToReadable : Option Nat
  configuredTimeoutMs : Nat
  pending : Nat
  deriving DecidableEq, Repr

/-- `serial->waitReadable()`: blocks until readable or until the
transport's *configured* timeout elapses. -/
def waitReadable (s : SerialReadState) : Bool :=
  match s.timeToReadable with
  | some t => decide (t ≤ s.configuredTimeoutMs)
  | none => false

/-- Lines 199-208.  `embeddedTimeout` is the `int` sitting at `data1`,
read into a local at line 203; `data2` is the requested length. -/
def callbackReadDevice (s : SerialReadState) (embeddedTimeout : Int)
    (data2 : Nat) : Int :=
  if s.avail = 0 then
    let _timeout := embeddedTimeout   -- line 203: read, then never used
    if !waitReadable s then
      (0 : Int)                       -- line 206: error, no new data
    else
      (min s.pending data2 : Nat)     -- line 208
  else
    (min s.pending data2 : Nat)       -- line 208

/-- What the spec sentence for read-device-data describes: the blocking
wait is bounded by the *embedded* timeout read from `data1`.  Stated from
the spec's words only, to compare against `callbackReadDevice`. -/
def callbackReadDeviceSpec (s : SerialReadState) (embeddedTimeout : Int)
    (data2 : Nat) : Int :=
  if s.avail = 0 then
    let ready := match s.timeToReadable with
      | some t => decide ((t : Int) ≤ embeddedTimeout)
      | none => false
    if !ready then (0 : Int)
    else (min s.pending data2 : Nat)
  else
    (min s.pending data2 : Nat)

/-! #### writeDeviceData (lines 210-217)

The transport is a list of per-call `serial->write` results (bytes
actually written); the callback consumes exactly one element — the source
makes a single `write` call and never retries. -/

def callbackWriteDevice (writeResults : List Nat) (data2 : Nat) :
    Int × List Nat :=
  match writeResults with
  | [] => (-1, [])
  | w :: rest =>   -- line 212: bytes_written = serial->write(data1, data2)
    (if w = data2 then (data2 : Int) else -1, rest)   -- lines 213-216

/-! #### gotRTCMMessage (lines 225-229) and `gotRTCMData` (187-193)

The decoder's buffer is a function `Nat → UInt8` (byte at each offset);
`forwarded` is the payload last handed to `RTCMPublisher.publish`.
`msg.data.assign(data, data + len)` copies the `len` bytes element-wise
into the message before `publish`. -/

structure RTCMState where
  source : Nat → UInt8
  forwarded : Option (List UInt8)

/-- Lines 187-193: the byte list placed in the published RTCM message. -/
def gotRTCMData (src : Nat → UInt8) (len : Nat) : List UInt8 :=
  (List.range len).map src

/-- Lines 225-229: forward the correction bytes, then `break` and return
0 at line 249. -/
def callbackGotRTCM (st : RTCMState) (len : Nat) : RTCMState × Int :=
  ({ st with forwarded := some (gotRTCMData st.source len) }, 0)

/-- The decoder reusing its internal buffer after the callback returned:
only `source` changes. -/
def mutateSource (st : RTCMState) (newSrc : Nat → UInt8) : RTCMState :=
  { st with source := newSrc }

/-! #### surveyInStatus (lines 231-237)

`SurveyInStatus` values live in a heap `Nat → SurveyInStatusV`; the
session's `surveyInStatus` field is the *address* it holds (it is a
`SurveyInStatus*`).  Line 233 assigns the callback's `data1` pointer to
the field. -/

structure SurveyInStatusV where
  duration : Nat
  mean_accuracy : Nat
  flags : Nat
  deriving DecidableEq, Repr

/-- Line 233: `surveyInStatus = (SurveyInStatus*)data1;` — the field
receives the pointer itself; then `break` and return 0 at line 249.
Returns (new field value, callback return value). -/
def callbackSurveyIn (fieldPtr : Nat) (data1Addr : Nat) : Nat × Int :=
  let _ := fieldPtr   -- previous field value is overwritten (and leaked)
  (data1Addr, 0)

/-- Dereference the session's stored `surveyInStatus` pointer in a given
heap (what any later reader of the field sees). -/
def readSurveyStatus (heap : Nat → SurveyInStatusV) (ptr : Nat) :
    SurveyInStatusV :=
  heap ptr

/-! ### Helper lemmas about the retry loop -/

theorem connectLoop_cons (n : Nat) (c isOpen : Bool) (o : OpenOutcome)
    (rest : List OpenOutcome) :
    connectLoop (n + 1) c isOpen (o :: rest) =
      if o.opened then
        ⟨true, [Ev.debugTrying, Ev.openCall] ++
          (if o.ex = some ExKind.otherFault then [Ev.fatalOther] else []) ++
          [Ev.setTimeout500]⟩
      else
        ⟨(connectLoop n false o.opened rest).connected,
          [Ev.debugTrying, Ev.openCall] ++
          (if o.ex = some ExKind.otherFault then [Ev.fatalOther] else []) ++
          ([Ev.infoBadConnection] ++ (connectLoop n false o.opened rest).events)⟩ := by
  by_cases ho : o.opened <;> by_cases hx : o.ex = some ExKind.otherFault <;>
    simp [connectLoop, serialOpen, ho, hx]

theorem connectLoop_nil (n : Nat) (c isOpen : Bool) :
    connectLoop (n + 1) c isOpen [] =
      if isOpen then
        ⟨true, [Ev.debugTrying, Ev.openCall, Ev.setTimeout500]⟩
      else
        ⟨(connectLoop n false isOpen []).connected,
          [Ev.debugTrying, Ev.openCall, Ev.infoBadConnection] ++
          (connectLoop n false isOpen []).events⟩ := by
  by_cases hIs : isOpen <;> simp [connectLoop, serialOpen, hIs]

/-- Every event the retry loop can emit: it never performs shape
configuration (`setBaudrate`/`setBytesize8`/`setParityNone`/
`setStopbitsOne`/`setFlowNone` happen before the loop, lines 74-78). -/
theorem connectLoop_events_mem (fuel : Nat) :
    ∀ (c isOpen : Bool) (outs : List OpenOutcome) (e : Ev),
      e ∈ (connectLoop fuel c isOpen outs).events →
      e = Ev.debugTrying ∨ e = Ev.openCall ∨ e = Ev.fatalOther ∨
        e = Ev.infoBadConnection ∨ e = Ev.setTimeout500 := by
  induction fuel with
  | zero => intro c isOpen outs e he; simp [connectLoop] at he
  | succ n ih =>
    intro c isOpen outs e he
    rcases outs with _ | ⟨o, rest⟩
    · rw [connectLoop_nil] at he
      by_cases hIs : isOpen <;> simp [hIs] at he
      · tauto
      · rcases he with he | he | he | he
        · tauto
        · tauto
        · tauto
        · exact ih _ _ _ e he
    · rw [connectLoop_cons] at he
      by_cases ho : o.opened <;>
        by_cases hx : o.ex = some ExKind.otherFault <;>
        simp [ho, hx] at he <;>
        [skip; skip; rcases he with he | he | he | he | he;
         rcases he with he | he | he | he] <;>
        first
          | tauto
          | exact ih _ _ _ e he

/-- If the loop ends not-connected, it never set the 500 timeout. -/
theorem connectLoop_not_connected_no_timeout (fuel : Nat) :
    ∀ (c isOpen : Bool) (outs : List OpenOutcome),
      (connectLoop fuel c isOpen outs).connected = false →
      Ev.setTimeout500 ∉ (connectLoop fuel c isOpen outs).events := by
  induction fuel with
  | zero => intro c isOpen outs _ he; simp [connectLoop] at he
  | succ n ih =>
    intro c isOpen outs hc he
    rcases outs with _ | ⟨o, rest⟩
    · rw [connectLoop_nil] at hc he
      by_cases hIs : isOpen <;> simp [hIs] at hc he
      exact ih _ _ _ hc (by tauto)
    · rw [connectLoop_cons] at hc he
      by_cases ho : o.opened <;>
        by_cases hx : o.ex = some ExKind.otherFault <;>
        simp [ho, hx] at hc he <;>
        exact ih _ _ _ hc (by tauto)

/-- A run of the loop in which every attempt finds the port closed:
`connected` ends false (it was assigned false on every iteration), one
`open()` call and one failure log per attempt, and the timeout is never
set. -/
theorem connectLoop_all_fail (fuel : Nat) :
    ∀ (c isOpen : Bool) (outs : List OpenOutcome),
      fuel ≤ outs.length →
      (∀ o ∈ outs.take fuel, o.opened = false) →
      (connectLoop fuel c isOpen outs).connected = (if fuel = 0 then c else false) ∧
      (connectLoop fuel c isOpen outs).events.count Ev.openCall = fuel ∧
      (connectLoop fuel c isOpen outs).events.count Ev.infoBadConnection = fuel ∧
      (connectLoop fuel c isOpen outs).events.count Ev.debugTrying = fuel ∧
      Ev.setTimeout500 ∉ (connectLoop fuel c isOpen outs).events := by
  induction fuel with
  | zero => intro c isOpen outs _ _; simp [connectLoop]
  | succ n ih =>
    intro c isOpen outs hlen hfail
    rcases outs with _ | ⟨o, rest⟩
    · simp at hlen
    · have ho : o.opened = false := hfail o (by simp)
      have hrest : ∀ o' ∈ rest.take n, o'.opened = false := by
        intro o' ho'
        exact hfail o' (by simp [List.take_succ_cons]; tauto)
      have hlen' : n ≤ rest.length := by simpa using hlen
      obtain ⟨ihc, iho, ihi, ihd, iht⟩ := ih false o.opened rest hlen' hrest
      rw [ho] at ihc iho ihi ihd iht
      have ihc' : (connectLoop n false false rest).connected = false := by
        rw [ihc]; split <;> rfl
      rw [connectLoop_cons]
      by_cases hx : o.ex = some ExKind.otherFault <;>
        simp [ho, hx, List.count_append, List.count_cons, iho, ihi, ihd, iht,
          ihc']

/-- If the loop reports success, the last thing it did before returning
was set the 500 time-unit timeout (lines 89-93: `connected = true`, then
`setTimeout`, then `return`). -/
theorem connectLoop_connected_getLast (fuel : Nat) :
    ∀ (c isOpen : Bool) (outs : List OpenOutcome), 0 < fuel →
      (connectLoop fuel c isOpen outs).connected = true →
      (connectLoop fuel c isOpen outs).events.getLast? =
        some Ev.setTimeout500 := by
  induction fuel with
  | zero => intro c isOpen outs h; exact absurd h (lt_irrefl 0)
  | succ n ih =>
    intro c isOpen outs _ hc
    rcases outs with _ | ⟨o, rest⟩
    · rw [connectLoop_nil] at hc ⊢
      by_cases hIs : isOpen
      · simp [hIs]
      · simp [hIs] at hc ⊢
        have hn : 0 < n := by
          rcases n with _ | m
          · simp [connectLoop] at hc
          · omega
        have hlast := ih false false [] hn hc
        rcases hrev : (connectLoop n false false []).events with _ | ⟨x, xs⟩
        · rw [hrev] at hlast; simp at hlast
        · rw [hrev] at hlast
          simpa [List.getLast?_cons_cons] using hlast
    · rw [connectLoop_cons] at hc ⊢
      by_cases ho : o.opened
      · by_cases hx : o.ex = some ExKind.otherFault <;> simp [ho, hx]
      · simp [ho] at hc ⊢
        have hn : 0 < n := by
          rcases n with _ | m
          · simp [connectLoop] at hc
          · omega
        have hlast := ih false false rest hn hc
        rcases hrev : (connectLoop n false false rest).events with _ | ⟨x, xs⟩
        · rw [hrev] at hlast; simp at hlast
        · rw [hrev] at hlast
          by_cases hx : o.ex = some ExKind.otherFault <;>
            simpa [hx, List.getLast?_cons_cons] using hlast

/-- Any iteration of the loop logs the line-82 debug message at least
once. -/
theorem connectLoop_debug_pos (n : Nat) (c isOpen : Bool)
    (outs : List OpenOutcome) :
    1 ≤ (connectLoop (n + 1) c isOpen outs).events.count Ev.debugTrying := by
  rcases outs with _ | ⟨o, rest⟩
  · rw [connectLoop_nil]
    by_cases hIs : isOpen <;>
      simp [hIs, List.count_cons, List.count_append]
  · rw [connectLoop_cons]
    by_cases ho : o.opened <;>
      by_cases hx : o.ex = some ExKind.otherFault <;>
      simp [ho, hx, List.count_cons, List.count_append]

/-! ### Unfolding equations for `connect` -/

theorem connect_throw (c0 : Bool) (e : ExKind) (b : Bool)
    (rest : List OpenOutcome) :
    connect c0 (⟨some e, b⟩ :: rest) =
      ⟨c0, some e, [Ev.setPort, Ev.openCall]⟩ := rfl

theorem connect_closed (c0 : Bool) (rest : List OpenOutcome) :
    connect c0 (⟨none, false⟩ :: rest) =
      ⟨c0, none, [Ev.setPort, Ev.openCall, Ev.warnFailedOpen]⟩ := rfl

theorem connect_opened (c0 : Bool) (rest : List OpenOutcome) :
    connect c0 (⟨none, true⟩ :: rest) =
      ⟨(connectLoop 5 c0 true rest).connected, none,
        [Ev.setPort, Ev.openCall, Ev.setBaudrate, Ev.setBytesize8,
         Ev.setParityNone, Ev.setStopbitsOne, Ev.setFlowNone] ++
        (connectLoop 5 c0 true rest).events⟩ := rfl

/-! ### Claim C1 -/

/-- Claim C1, counterexample: the claim says no exception propagates out
of `connect()` and that every failed open attempt is logged and the loop
continues, but the initial `serial->open()` at line 69 is outside any
try/catch — on a transport whose first open throws an IO fault, the
exception escapes `connect` (and no retry happens: only one open call was
made). -/
theorem connect_first_open_escapes :
    (connect false [⟨some ExKind.ioFault, false⟩]).escaped =
      some ExKind.ioFault ∧
    (connect false [⟨some ExKind.ioFault, false⟩]).events.count
      Ev.openCall = 1 := by
  decide

/-- Claim C1 (amended): `connect()` first makes one unguarded open call
(line 69): an exception thrown there propagates out of `connect`, and if
that call returns with the port still closed, `connect` logs a warning
and returns at once — no retries, `connected` left unchanged.  Only when
the initial open reports the port open does `connect` enter the retry
loop of up to 5 further attempts; exceptions there are caught and never
propagate (the unexpected-fault class additionally logs at fatal severity
but is merely counted, the loop goes on); each failed attempt logs and
continues, and after the 5th failure the session is left not-connected
(`connected = false`). -/
theorem c1_connect_retry_behavior (c0 : Bool) :
    (∀ (e : ExKind) (b : Bool) (rest : List OpenOutcome),
      (connect c0 (⟨some e, b⟩ :: rest)).escaped = some e) ∧
    (∀ rest : List OpenOutcome,
      (connect c0 (⟨none, false⟩ :: rest)).escaped = none ∧
      (connect c0 (⟨none, false⟩ :: rest)).connected = c0 ∧
      (connect c0 (⟨none, false⟩ :: rest)).events.count Ev.openCall = 1 ∧
      Ev.warnFailedOpen ∈ (connect c0 (⟨none, false⟩ :: rest)).events) ∧
    (∀ rest : List OpenOutcome,
      (connect c0 (⟨none, true⟩ :: rest)).escaped = none) ∧
    (∀ o₁ o₂ o₃ o₄ o₅ : OpenOutcome, ∀ rest : List OpenOutcome,
      o₁.opened = false → o₂.opened = false → o₃.opened = false →
      o₄.opened = false → o₅.opened = false →
      (connect c0 (⟨none, true⟩ :: o₁ :: o₂ :: o₃ :: o₄ :: o₅ :: rest)).connected
          = false ∧
      (connect c0 (⟨none, true⟩ :: o₁ :: o₂ :: o₃ :: o₄ :: o₅ :: rest)).events.count
          Ev.openCall = 6 ∧
      (connect c0 (⟨none, true⟩ :: o₁ :: o₂ :: o₃ :: o₄ :: o₅ :: rest)).events.count
          Ev.infoBadConnection = 5) ∧
    (∀ (o : OpenOutcome) (rest : List OpenOutcome),
      o.opened = false → o.ex = some ExKind.otherFault →
      Ev.fatalOther ∈ (connect c0 (⟨none, true⟩ :: o :: rest)).events ∧
      2 ≤ (connect c0 (⟨none, true⟩ :: o :: rest)).events.count
          Ev.debugTrying) := by
  refine ⟨fun e b rest => rfl, ?_, fun rest => rfl, ?_, ?_⟩
  · intro rest
    rw [connect_closed]
    refine ⟨rfl, rfl, rfl, by simp⟩
  · intro o₁ o₂ o₃ o₄ o₅ rest h₁ h₂ h₃ h₄ h₅
    rw [connect_opened]
    have hfail : ∀ o ∈ (o₁ :: o₂ :: o₃ :: o₄ :: o₅ :: rest).take 5,
        o.opened = false := by
      simp [List.take]
      exact ⟨h₁, h₂, h₃, h₄, h₅⟩
    have hlen : 5 ≤ (o₁ :: o₂ :: o₃ :: o₄ :: o₅ :: rest).length := by
      simp
    obtain ⟨hc, ho, hi, -, -⟩ :=
      connectLoop_all_fail 5 c0 true (o₁ :: o₂ :: o₃ :: o₄ :: o₅ :: rest)
        hlen hfail
    refine ⟨by simpa using hc, ?_, ?_⟩
    · simp [List.count_append, List.count_cons, ho]
    · simp [List.count_append, List.count_cons, hi]
  · intro o rest ho hx
    rw [connect_opened]
    constructor
    · show Ev.fatalOther ∈ _ ++ (connectLoop 5 c0 true (o :: rest)).events
      rw [connectLoop_cons]
      simp [ho, hx]
    · rw [connectLoop_cons]
      have h4 : 1 ≤ (connectLoop 4 false false rest).events.count
          Ev.debugTrying := connectLoop_debug_pos 3 false false rest
      simp [ho, hx, List.count_append, List.count_cons]
      simpa using h4

/-- Claim C1, witness: the amended behavior at concrete transports — a
first-open throw escapes; a silent first-open failure leaves the session
not connected; five loop failures (one with an unexpected fault) leave
`connected = false` with five failure logs and a fatal log. -/
theorem c1_connect_retry_behavior_witness :
    (connect false [⟨some ExKind.ioFault, false⟩]).escaped =
      some ExKind.ioFault ∧
    (connect false [⟨none, false⟩]).connected = false ∧
    (connect false [⟨none, true⟩, ⟨none, false⟩, ⟨none, false⟩,
      ⟨none, false⟩, ⟨some ExKind.otherFault, false⟩,
      ⟨none, false⟩]).connected = false ∧
    (connect false [⟨none, true⟩, ⟨none, false⟩, ⟨none, false⟩,
      ⟨none, false⟩, ⟨some ExKind.otherFault, false⟩,
      ⟨none, false⟩]).events.count Ev.infoBadConnection = 5 ∧
    Ev.fatalOther ∈
      (connect false [⟨none, true⟩,
        ⟨some ExKind.otherFault, false⟩]).events :=
  ⟨(c1_connect_retry_behavior false).1 ExKind.ioFault false [],
   ((c1_connect_retry_behavior false).2.1 []).2.1,
   ((c1_connect_retry_behavior false).2.2.2.1
      ⟨none, false⟩ ⟨none, false⟩ ⟨none, false⟩
      ⟨some ExKind.otherFault, false⟩ ⟨none, false⟩ []
      rfl rfl rfl rfl rfl).1,
   ((c1_connect_retry_behavior false).2.2.2.1
      ⟨none, false⟩ ⟨none, false⟩ ⟨none, false⟩
      ⟨some ExKind.otherFault, false⟩ ⟨none, false⟩ []
      rfl rfl rfl rfl rfl).2.2,
   ((c1_connect_retry_behavior false).2.2.2.2
      ⟨some ExKind.otherFault, false⟩ [] rfl rfl).1⟩

/-! ### Claim C4 -/

/-- Claim C4: `status_px4_to_ros` maps fix-quality codes 0, 1, 2 to -1
(no fix), 3 to 0 (fix), 4, 5, 6 to 2 (augmented fix), 8 to 1
(dead-reckoning), and every other integer to -1. -/
theorem c4_status_px4_to_ros_map (s : Int) :
    ((s = 0 ∨ s = 1 ∨ s = 2) → status_px4_to_ros s = -1) ∧
    (s = 3 → status_px4_to_ros s = 0) ∧
    ((s = 4 ∨ s = 5 ∨ s = 6) → status_px4_to_ros s = 2) ∧
    (s = 8 → status_px4_to_ros s = 1) ∧
    (s ∉ ([0, 1, 2, 3, 4, 5, 6, 8] : List Int) →
      status_px4_to_ros s = -1) := by
  refine ⟨?_, ?_, ?_, ?_, ?_⟩
  · rintro (rfl | rfl | rfl) <;> rfl
  · rintro rfl; rfl
  · rintro (rfl | rfl | rfl) <;> rfl
  · rintro rfl; rfl
  · intro hs
    simp only [List.mem_cons, List.not_mem_nil, or_false, not_or] at hs
    obtain ⟨h0, h1, h2, h3, h4, h5, h6, h8⟩ := hs
    simp [status_px4_to_ros, h0, h1, h2, h3, h4, h5, h6, h8]

/-- Claim C4, witness: the map evaluated at representatives of each
class, including an out-of-range code. -/
theorem c4_status_px4_to_ros_map_witness :
    status_px4_to_ros 0 = -1 ∧ status_px4_to_ros 3 = 0 ∧
    status_px4_to_ros 5 = 2 ∧ status_px4_to_ros 8 = 1 ∧
    status_px4_to_ros 7 = -1 :=
  ⟨(c4_status_px4_to_ros_map 0).1 (Or.inl rfl),
   (c4_status_px4_to_ros_map 3).2.1 rfl,
   (c4_status_px4_to_ros_map 5).2.2.1 (Or.inr (Or.inl rfl)),
   (c4_status_px4_to_ros_map 8).2.2.2.1 rfl,
   (c4_status_px4_to_ros_map 7).2.2.2.2 (by decide)⟩

theorem connect_nil (c0 : Bool) :
    connect c0 [] =
      ⟨c0, none, [Ev.setPort, Ev.openCall, Ev.warnFailedOpen]⟩ := rfl

/-! ### Claim C7 -/

/-- Claim C7: whenever `connect()` (entered with `connected = false`, the
constructor value) ends connected, the 8-N-1-no-flow-control shape was
configured and the 500 time-unit read timeout set before it returned —
the timeout call is literally the last action before the return.  When it
ends not connected no timeout call occurred at all, and nothing after the
pre-loop configuration (the part of the trace from the retry loop on, in
particular anything after the 5th failure) is a shape or timeout
configuration call. -/
theorem c7_connect_configures_on_success (outs : List OpenOutcome) :
    ((connect false outs).connected = true →
      Ev.setBytesize8 ∈ (connect false outs).events ∧
      Ev.setParityNone ∈ (connect false outs).events ∧
      Ev.setStopbitsOne ∈ (connect false outs).events ∧
      Ev.setFlowNone ∈ (connect false outs).events ∧
      (connect false outs).events.getLast? = some Ev.setTimeout500) ∧
    ((connect false outs).connected = false →
      Ev.setTimeout500 ∉ (connect false outs).events) ∧
    (∀ e ∈ (connect false outs).events.drop 7,
      e ≠ Ev.setBaudrate ∧ e ≠ Ev.setBytesize8 ∧ e ≠ Ev.setParityNone ∧
      e ≠ Ev.setStopbitsOne ∧ e ≠ Ev.setFlowNone) := by
  rcases outs with _ | ⟨⟨ex, op⟩, rest⟩
  · rw [connect_nil]
    refine ⟨fun hc => by simp at hc, fun _ => by simp, fun e he => ?_⟩
    simp at he
  · rcases ex with _ | e
    · rcases op with _ | _
      · rw [connect_closed]
        refine ⟨fun hc => by simp at hc, fun _ => by simp, fun e he => ?_⟩
        simp at he
      · rw [connect_opened]
        refine ⟨?_, ?_, ?_⟩
        · intro hc
          simp only at hc
          have hlast := connectLoop_connected_getLast 5 false true rest
            (by omega) hc
          have hne : (connectLoop 5 false true rest).events ≠ [] := by
            intro h0; rw [h0] at hlast; simp at hlast
          refine ⟨by simp, by simp, by simp, by simp, ?_⟩
          simp only
          rw [List.getLast?_append_of_ne_nil _ hne]
          exact hlast
        · intro hc
          simp only at hc
          have hnt := connectLoop_not_connected_no_timeout 5 false true
            rest hc
          simp only [List.mem_append, List.mem_cons, List.not_mem_nil]
          rintro (h | h)
          · simp at h
          · exact hnt h
        · intro e he
          simp only [List.cons_append, List.nil_append,
            List.drop_succ_cons, List.drop_zero] at he
          have := connectLoop_events_mem 5 false true rest e he
          rcases this with rfl | rfl | rfl | rfl | rfl <;> simp
    · rcases op with _ | _ <;>
        · rw [connect_throw]
          refine ⟨fun hc => by simp at hc, fun _ => by simp, fun e he => ?_⟩
          simp at he

/-- Claim C7, witness: a transport that opens cleanly ends connected with
the shape configured and the timeout as the final action; a transport
that opens, then fails all 5 retry attempts, ends not connected with no
timeout call and no configuration call after the pre-loop setup. -/
theorem c7_connect_configures_on_success_witness :
    (Ev.setBytesize8 ∈ (connect false [⟨none, true⟩, ⟨none, true⟩]).events ∧
      Ev.setParityNone ∈ (connect false [⟨none, true⟩, ⟨none, true⟩]).events ∧
      Ev.setStopbitsOne ∈ (connect false [⟨none, true⟩, ⟨none, true⟩]).events ∧
      Ev.setFlowNone ∈ (connect false [⟨none, true⟩, ⟨none, true⟩]).events ∧
      (connect false [⟨none, true⟩, ⟨none, true⟩]).events.getLast? =
        some Ev.setTimeout500) ∧
    Ev.setTimeout500 ∉ (connect false [⟨none, true⟩, ⟨none, false⟩,
      ⟨none, false⟩, ⟨none, false⟩, ⟨none, false⟩,
      ⟨none, false⟩]).events :=
  ⟨(c7_connect_configures_on_success [⟨none, true⟩, ⟨none, true⟩]).1
      (by decide),
   (c7_connect_configures_on_success [⟨none, true⟩, ⟨none, false⟩,
      ⟨none, false⟩, ⟨none, false⟩, ⟨none, false⟩, ⟨none, false⟩]).2.1
      (by decide)⟩

/-- Once `numTries` has reached 3 the guard of line 111 fails: no further
iteration runs, whatever fuel remains. -/
theorem runLoop_stop (sat : Bool) (flag : Nat → Bool) (recv : Nat → Int)
    (fuel idx : Nat) :
    runLoop sat flag recv fuel idx 3 = [] := by
  cases fuel <;> simp [runLoop]

/-! ### Claim C3 -/

/-- Claim C3: while `ros::ok()` stays true, three consecutive
`receive` results ≤ 0 — starting from any point `idx` at which the
consecutive-failure counter is 0, i.e. the loop start or the call right
after a positive result — terminate the loop after exactly those 3 calls
(`min fuel 3` calls for every unrolling depth `fuel`: no further
`receive` call ever happens); but a positive result on the 3rd call after
two ≤ 0 results brings the counter back to 0 and the loop keeps calling
`receive` (at least a 4th call happens).  The last conjunct ties the
loop-trace length to `receiveCalls` (the loop as entered by `run`). -/
theorem c3_session_loop_abort (sat : Bool) (recv : Nat → Int) (idx : Nat) :
    ((recv idx ≤ 0 ∧ recv (idx + 1) ≤ 0 ∧ recv (idx + 2) ≤ 0) →
      ∀ fuel, (runLoop sat (fun _ => true) recv fuel idx 0).length =
        min fuel 3) ∧
    ((recv idx ≤ 0 ∧ recv (idx + 1) ≤ 0 ∧ 0 < recv (idx + 2)) →
      (step sat (step sat (step sat 0 (recv idx)).1 (recv (idx + 1))).1
          (recv (idx + 2))).1 = 0 ∧
      ∀ fuel, 4 ≤ fuel →
        4 ≤ (runLoop sat (fun _ => true) recv fuel idx 0).length) ∧
    (∀ fuel, receiveCalls sat (fun _ => true) recv fuel =
      (runLoop sat (fun _ => true) recv fuel 0 0).length) := by
  refine ⟨?_, ?_, fun fuel => rfl⟩
  · rintro ⟨h0, h1, h2⟩ fuel
    have s0 : step sat 0 (recv idx) = (1, []) := by
      unfold step; rw [if_neg (by omega)]; decide
    have s1 : step sat 1 (recv (idx + 1)) = (2, []) := by
      unfold step; rw [if_neg (by omega)]; decide
    have s2 : step sat 2 (recv (idx + 2)) = (3, []) := by
      unfold step; rw [if_neg (by omega)]; decide
    rcases fuel with _ | _ | _ | n <;>
      simp [runLoop, s0, s1, s2, runLoop_stop]
  · rintro ⟨h0, h1, h2⟩
    have s0 : step sat 0 (recv idx) = (1, []) := by
      unfold step; rw [if_neg (by omega)]; decide
    have s1 : step sat 1 (recv (idx + 1)) = (2, []) := by
      unfold step; rw [if_neg (by omega)]; decide
    have t2 : (step sat 2 (recv (idx + 2))).1 = 0 := by
      unfold step; rw [if_pos h2]
    constructor
    · simp [s0, s1, t2]
    · intro fuel hfuel
      obtain ⟨n, rfl⟩ : ∃ n, fuel = n + 4 := ⟨fuel - 4, by omega⟩
      simp [runLoop, s0, s1, t2]

/-- Claim C3, witness: with `receive` always returning -1, the loop tail
started at index 5 makes exactly 3 of up to 10 allowed calls; with
-1, -1, 1 from index 5 the counter is back to 0 after the 3rd call and a
4th call happens; and `receiveCalls` is the length of the loop trace from
the start. -/
theorem c3_session_loop_abort_witness :
    (runLoop false (fun _ => true) (fun _ => (-1 : Int)) 10 5 0).length
      = 3 ∧
    (step false (step false (step false 0 (-1 : Int)).1 (-1 : Int)).1
      (1 : Int)).1 = 0 ∧
    4 ≤ (runLoop false (fun _ => true)
      (fun k => if k = 7 then (1 : Int) else -1) 6 5 0).length ∧
    receiveCalls false (fun _ => true) (fun _ => (-1 : Int)) 4 =
      (runLoop false (fun _ => true) (fun _ => (-1 : Int)) 4 0 0).length := by
  refine ⟨?_, ?_, ?_, ?_⟩
  · have h := (c3_session_loop_abort false (fun _ => -1) 5).1
      ⟨by norm_num, by norm_num, by norm_num⟩ 10
    omega
  · exact ((c3_session_loop_abort false
      (fun k => if k = 7 then 1 else -1) 5).2.1
      ⟨by norm_num, by norm_num, by norm_num⟩).1
  · exact ((c3_session_loop_abort false
      (fun k => if k = 7 then 1 else -1) 5).2.1
      ⟨by norm_num, by norm_num, by norm_num⟩).2 6 (by norm_num)
  · exact (c3_session_loop_abort false (fun _ => -1) 0).2.2 4

/-! ### Claim C5 -/

/-- Claim C5: for every positive `receive` result the loop body resets
the consecutive-failure counter to 0 (not only on publishes: any positive
result does it, and the publishes reset it again), and treats the result
as a bitmask — bit 0 set invokes the Position Publisher, bit 1 set with
the Satellite Info slot present invokes the Satellite Publisher. -/
theorem c5_positive_receive_bitmask (sat : Bool) (numTries ret : Int)
    (h : 0 < ret) :
    (step sat numTries ret).1 = 0 ∧
    (ret.toNat.testBit 0 = true →
      REv.publishPos ∈ (step sat numTries ret).2) ∧
    (sat = true → ret.toNat.testBit 1 = true →
      REv.publishSat ∈ (step sat numTries ret).2) := by
  refine ⟨?_, ?_, ?_⟩
  · unfold step; rw [if_pos h]
  · intro hb
    unfold step; rw [if_pos h]
    simp [hb]
  · intro hsat hb
    unfold step; rw [if_pos h]
    simp [hsat, hb]

/-- Claim C5, witness: result 3 (both bits set) with the satellite slot
present resets the counter from 2 to 0 and publishes both reports. -/
theorem c5_positive_receive_bitmask_witness :
    (step true 2 3).1 = 0 ∧
    REv.publishPos ∈ (step true 2 3).2 ∧
    REv.publishSat ∈ (step true 2 3).2 :=
  ⟨(c5_positive_receive_bitmask true 2 3 (by norm_num)).1,
   (c5_positive_receive_bitmask true 2 3 (by norm_num)).2.1 (by decide),
   (c5_positive_receive_bitmask true 2 3 (by norm_num)).2.2 rfl
     (by decide)⟩

/-! ### Claim C2 -/

/-- Claim C2 (code bug): line 233 stores the callback's `data1` pointer
itself into the session's `surveyInStatus` field instead of copying the
referenced value (the constructor even allocates an owned
`SurveyInStatus` to hold a copy, which this assignment leaks).  The
callback does return 0, but the stored status does not remain valid past
the callback-scoped pointer's lifetime: callback at address 42 while it
holds `⟨10, 5, 3⟩`; after the decoder reuses the buffer (heap now holds
`⟨0, 0, 0⟩` everywhere) the session's status reads `⟨0, 0, 0⟩`, not the
`⟨10, 5, 3⟩` a copy would have preserved. -/
theorem c2_survey_status_stores_pointer :
    (callbackSurveyIn 7 42).1 = 42 ∧
    (callbackSurveyIn 7 42).2 = 0 ∧
    readSurveyStatus (fun _ => ⟨10, 5, 3⟩) 42 = ⟨10, 5, 3⟩ ∧
    readSurveyStatus (fun _ => ⟨0, 0, 0⟩) (callbackSurveyIn 7 42).1 =
      ⟨0, 0, 0⟩ ∧
    (⟨0, 0, 0⟩ : SurveyInStatusV) ≠ ⟨10, 5, 3⟩ := by
  decide

/-! ### Claim C6 -/

/-- Claim C6: the correction callback hands the sink exactly `len` bytes
in source order, copied out of the decoder's buffer before the callback
returns — mutating the source buffer afterwards leaves the forwarded
message unchanged — and the callback returns 0. -/
theorem c6_correction_copy_roundtrip (src newSrc : Nat → UInt8)
    (len : Nat) (fwd0 : Option (List UInt8)) :
    (mutateSource (callbackGotRTCM ⟨src, fwd0⟩ len).1 newSrc).forwarded =
      some (gotRTCMData src len) ∧
    (gotRTCMData src len).length = len ∧
    (∀ i, i < len → (gotRTCMData src len)[i]? = some (src i)) ∧
    (callbackGotRTCM ⟨src, fwd0⟩ len).2 = 0 := by
  refine ⟨rfl, by simp [gotRTCMData], ?_, rfl⟩
  intro i hi
  simp [gotRTCMData, List.getElem?_map, List.getElem?_range, hi]

/-- Claim C6, witness: a 3-byte correction message `[1, 2, 3]` survives a
wholesale overwrite of the source buffer with zeros. -/
theorem c6_correction_copy_roundtrip_witness :
    (mutateSource
      (callbackGotRTCM ⟨fun n => UInt8.ofNat (n + 1), none⟩ 3).1
      (fun _ => 0)).forwarded =
      some (gotRTCMData (fun n => UInt8.ofNat (n + 1)) 3) ∧
    (gotRTCMData (fun n => UInt8.ofNat (n + 1)) 3).length = 3 ∧
    (gotRTCMData (fun n => UInt8.ofNat (n + 1)) 3)[1]? = some 2 :=
  ⟨(c6_correction_copy_roundtrip (fun n => UInt8.ofNat (n + 1))
      (fun _ => 0) 3 none).1,
   (c6_correction_copy_roundtrip (fun n => UInt8.ofNat (n + 1))
      (fun _ => 0) 3 none).2.1,
   (c6_correction_copy_roundtrip (fun n => UInt8.ofNat (n + 1))
      (fun _ => 0) 3 none).2.2.1 1 (by decide)⟩

/-! ### Claim C8 -/

/-- Claim C8, counterexample: transport with 0 bytes available, data
arriving after 300 time-units, configured transport timeout 500, embedded
timeout (the int at `data1`) 100.  Under the claim the wait is bounded by
the embedded 100 time-units, so the callback should return 0 (still not
readable when it elapses); the code's `waitReadable()` waits on the
transport's configured 500, succeeds, and the callback returns the 4
bytes read. -/
theorem c8_counterexample_embedded_timeout_unused :
    callbackReadDevice ⟨0, some 300, 500, 4⟩ 100 10 = 4 ∧
    callbackReadDeviceSpec ⟨0, some 300, 500, 4⟩ 100 10 = 0 ∧
    callbackReadDevice ⟨0, some 300, 500, 4⟩ 100 10 ≠
      callbackReadDeviceSpec ⟨0, some 300, 500, 4⟩ 100 10 := by
  decide

/-- Claim C8 (amended): if the transport reports zero available bytes,
the bridge blocks until the transport is readable or until the
transport's *configured* read timeout elapses — the embedded timeout is
read from `data1` but never used, so the result is independent of it —
returning 0 if still not readable; otherwise it reads up to `data2` bytes
into the buffer and returns the number of bytes read. -/
theorem c8_read_device_data (s : SerialReadState) (t u : Int) (n : Nat) :
    callbackReadDevice s t n = callbackReadDevice s u n ∧
    (s.avail = 0 → waitReadable s = false →
      callbackReadDevice s t n = 0) ∧
    (s.avail = 0 → waitReadable s = true →
      callbackReadDevice s t n = (min s.pending n : Nat)) ∧
    (s.avail ≠ 0 → callbackReadDevice s t n = (min s.pending n : Nat)) ∧
    callbackReadDevice s t n ≤ (n : Int) := by
  refine ⟨rfl, ?_, ?_, ?_, ?_⟩
  · intro ha hw; simp [callbackReadDevice, ha, hw]
  · intro ha hw; simp [callbackReadDevice, ha, hw]
  · intro ha; simp [callbackReadDevice, ha]
  · unfold callbackReadDevice
    split_ifs <;> simp

/-- Claim C8, witness: never-readable transport yields 0; readable-in-time
transport yields the read count (clamped by the request); nonzero
`available()` skips the wait and reads. -/
theorem c8_read_device_data_witness :
    callbackReadDevice ⟨0, none, 500, 4⟩ 100 10 = 0 ∧
    callbackReadDevice ⟨0, some 100, 500, 9⟩ 100 5 = 5 ∧
    callbackReadDevice ⟨3, none, 500, 2⟩ 100 7 = 2 :=
  ⟨(c8_read_device_data ⟨0, none, 500, 4⟩ 100 100 10).2.1 rfl rfl,
   (c8_read_device_data ⟨0, some 100, 500, 9⟩ 100 100 5).2.2.1 rfl rfl,
   (c8_read_device_data ⟨3, none, 500, 2⟩ 100 100 7).2.2.2.1
     (by decide)⟩

/-! ### Claim C9 -/

/-- Claim C9: the write-device-data callback issues exactly one transport
write (the remaining oracle is returned untouched — a short write is
never retried) and returns `data2` when the transport wrote exactly
`data2` bytes, -1 otherwise. -/
theorem c9_write_device_data (w data2 : Nat) (rest : List Nat) :
    (w = data2 →
      callbackWriteDevice (w :: rest) data2 = ((data2 : Int), rest)) ∧
    (w ≠ data2 →
      callbackWriteDevice (w :: rest) data2 = (-1, rest)) := by
  constructor
  · rintro rfl; simp [callbackWriteDevice]
  · intro hne; simp [callbackWriteDevice, hne]

/-- Claim C9, witness: a full 5-byte write returns 5; a 3-of-5 short
write returns -1; neither consumes more than the single write outcome. -/
theorem c9_write_device_data_witness :
    callbackWriteDevice [5, 7] 5 = (5, [7]) ∧
    callbackWriteDevice [3] 5 = (-1, []) :=
  ⟨(c9_write_device_data 5 5 [7]).1 rfl,
   (c9_write_device_data 3 5 []).2 (by decide)⟩

/-! ### Claim C10 -/

/-- What the claim's words describe for the covariance: the horizontal
and vertical error estimates in *two* diagonal slots (the first and last)
of an otherwise-zeroed structure.  Stated from the spec's words only, to
compare with `publishGPSPosition`. -/
def specTwoSlotCovariance (r : GpsReport) : Fin 9 → Int :=
  fun i =>
    if i = (0 : Fin 9) then r.eph
    else if i = (8 : Fin 9) then r.epv
    else 0

/-- Claim C10, counterexample: with horizontal error 5 the code writes
the middle diagonal slot too — `position_covariance[4] = 5`, where the
claimed two-diagonal-slot layout has 0 — so the emitted covariance is not
the claimed one. -/
theorem c10_counterexample_three_diagonal_slots :
    (publishGPSPosition ⟨1, 2, 3, 3, 5, 7, 99⟩ 100).position_covariance
      4 = 5 ∧
    specTwoSlotCovariance ⟨1, 2, 3, 3, 5, 7, 99⟩ 4 = 0 ∧
    (publishGPSPosition ⟨1, 2, 3, 3, 5, 7, 99⟩ 100).position_covariance ≠
      specTwoSlotCovariance ⟨1, 2, 3, 3, 5, 7, 99⟩ := by
  decide

/-- Claim C10 (amended): every position event carries the report's
latitude, longitude, and altitude; the horizontal error estimate goes
into diagonal covariance slots 0 and 4 and the vertical estimate into
diagonal slot 8 (three written diagonal slots, not two) of an
otherwise-zeroed covariance structure tagged approximated (type 1); the
status is the mapped fix type; and the timestamp is taken at publish
time (the report's decode-time stamp is never read). -/
theorem c10_position_event_fields (r : GpsReport) (now : Int) :
    (publishGPSPosition r now).stamp = now ∧
    (publishGPSPosition r now).latitude = r.lat ∧
    (publishGPSPosition r now).longitude = r.lon ∧
    (publishGPSPosition r now).altitude = r.alt ∧
    (publishGPSPosition r now).position_covariance 0 = r.eph ∧
    (publishGPSPosition r now).position_covariance 4 = r.eph ∧
    (publishGPSPosition r now).position_covariance 8 = r.epv ∧
    (∀ i : Fin 9, i ≠ 0 → i ≠ 4 → i ≠ 8 →
      (publishGPSPosition r now).position_covariance i = 0) ∧
    (publishGPSPosition r now).position_covariance_type = 1 ∧
    (publishGPSPosition r now).status = status_px4_to_ros r.fix_type := by
  refine ⟨rfl, rfl, rfl, rfl, by simp [publishGPSPosition],
    by simp [publishGPSPosition], by simp [publishGPSPosition],
    ?_, rfl, rfl⟩
  intro i h0 h4 h8
  simp [publishGPSPosition, h0, h4, h8]

/-- Claim C10, witness: the concrete report (lat 1, lon 2, alt 3, fix 3,
eph 5, epv 7, decode stamp 99) published at time 100. -/
theorem c10_position_event_fields_witness :
    (publishGPSPosition ⟨1, 2, 3, 3, 5, 7, 99⟩ 100).stamp = 100 ∧
    (publishGPSPosition ⟨1, 2, 3, 3, 5, 7, 99⟩ 100).latitude = 1 ∧
    (publishGPSPosition ⟨1, 2, 3, 3, 5, 7, 99⟩ 100).position_covariance
      8 = 7 ∧
    (publishGPSPosition ⟨1, 2, 3, 3, 5, 7, 99⟩ 100).position_covariance
      2 = 0 :=
  ⟨(c10_position_event_fields ⟨1, 2, 3, 3, 5, 7, 99⟩ 100).1,
   (c10_position_event_fields ⟨1, 2, 3, 3, 5, 7, 99⟩ 100).2.1,
   (c10_position_event_fields ⟨1, 2, 3, 3, 5, 7, 99⟩ 100).2.2.2.2.2.2.1,
   (c10_position_event_fields ⟨1, 2, 3, 3, 5, 7, 99⟩ 100).2.2.2.2.2.2.2.1
     2 (by decide) (by decide) (by decide)⟩

end RTKNode
